import Mathlib

/-
Verification of the forecasting model-serving pipeline (src/main.py) against
its natural-language specification.

Python strings are modelled as lists of characters (`PyStr`); Python dicts as
extensional partial maps (`PyDict`); exceptions as `Option`/`Except` failure.
Numeric payload values are modelled as rationals (floats are not modelled
bit-for-bit; every concrete number appearing in the claims is exactly
representable). Each definition is translated from the source file, except
those whose doc comment starts with "Modelled from the spec:" (code that lives
in lib/predictive_model.py, which is not part of the repository sources).
-/

namespace Forecasting

/-- Python strings, modelled as lists of characters (code points). -/
abbrev PyStr := List Char

/-- Numeric value of a decimal digit character: `c.toNat - 48`. -/
def charToDigit (c : Char) : Nat := c.toNat - 48

/-- Value of a big-endian decimal digit string (the core of Python `int`). -/
def digitsVal (cs : List Char) : Nat :=
  cs.foldl (fun a c => 10 * a + charToDigit c) 0

/-- Fuelled decimal rendering of a natural number (empty for 0). -/
def natToDigitsAux : Nat → Nat → List Char
  | 0, _ => []
  | fuel + 1, n =>
    if n = 0 then [] else natToDigitsAux fuel (n / 10) ++ [Nat.digitChar (n % 10)]

/-- Python `str` on a non-negative integer. -/
def pyStrOfNat (n : Nat) : PyStr :=
  if n = 0 then ['0'] else natToDigitsAux (n + 1) n

/-- Python `str` on an integer (a leading minus sign when negative). -/
def pyStrOfInt (i : Int) : PyStr :=
  if i < 0 then '-' :: pyStrOfNat i.natAbs else pyStrOfNat i.toNat

/-- Python `int` applied to a string: an optional sign followed by at least one
decimal digit; anything else raises `ValueError`, modelled as `none`. -/
def pyInt (cs : PyStr) : Option Int :=
  match cs with
  | [] => Option.none
  | c :: rest =>
    if c = '-' then
      if rest ≠ [] ∧ rest.all Char.isDigit then some (-(digitsVal rest : Int))
      else Option.none
    else if c = '+' then
      if rest ≠ [] ∧ rest.all Char.isDigit then some ((digitsVal rest : Int))
      else Option.none
    else
      if (c :: rest).all Char.isDigit then some ((digitsVal (c :: rest) : Int))
      else Option.none

/-- Python `s.split(sep)` for a one-character separator: keeps empty pieces and
always returns at least one piece. -/
def splitOnChar (sep : Char) : List Char → List (List Char)
  | [] => [[]]
  | c :: rest =>
    if c = sep then [] :: splitOnChar sep rest
    else
      match splitOnChar sep rest with
      | [] => [[c]]
      | p :: ps => (c :: p) :: ps

/-- Python slice `t[:-k]`: for `k = 0` this is `t[:0] = ""`, otherwise it drops
the last `k` characters (all of them when `k ≥ len t`). -/
def pySliceDropLast (t : PyStr) (k : Nat) : PyStr :=
  if k = 0 then [] else t.take (t.length - k)

/-- Topic name built inside `get_input_data_topics` (main.py line 48):
`"features_{}_{}{}".format(sensor, horizon, time_period)`. -/
def format_topic (sensor : PyStr) (horizon : Int) (time_period : PyStr) : PyStr :=
  "features_".data ++ sensor ++ ['_'] ++ pyStrOfInt horizon ++ time_period

/-- The `get_input_data_topics` function (main.py lines 44-50): appends one
topic per (sensor, horizon) pair, sensors outermost. -/
def get_input_data_topics (sensors : List PyStr) (horizons : List Int)
    (time_period : PyStr) : List PyStr :=
  sensors.foldl
    (fun topics sensor =>
      horizons.foldl
        (fun acc horizon => acc ++ [format_topic sensor horizon time_period]) topics)
    []

/-- Key resolution performed in the prediction loop (main.py lines 226-227):
`horizon = int(topic.split("_")[-1][:-len(time_offset)])` and
`sensor = topic.split("_")[-2]`. Any exception (ValueError from `int`,
IndexError from `[-2]`) is modelled as `none`. -/
def resolveTopic (topic : PyStr) (time_offset : PyStr) : Option (PyStr × Int) :=
  match (splitOnChar '_' topic).reverse with
  | lastPart :: secondPart :: _ =>
    match pyInt (pySliceDropLast lastPart time_offset.length) with
    | some h => some (secondPart, h)
    | Option.none => Option.none
  | _ => Option.none

/-- The `os.path.join(dir, filename)` call as used here (a relative filename
joined onto a directory): `dir ++ "/" ++ filename`. -/
def pyPathJoin (a b : PyStr) : PyStr := a ++ '/' :: b

/-- The `get_model_file_name` function (main.py lines 22-30); the `os.makedirs`
side effect is not modelled. The `time_period` parameter defaults to `"h"`
exactly as in the source. -/
def get_model_file_name (sensor : PyStr) (horizon : Int)
    (time_period : PyStr := ['h']) : PyStr :=
  pyPathJoin "models".data
    ("model_".data ++ sensor ++ ['_'] ++ pyStrOfInt horizon ++ time_period)

/-- The `get_data_file_name` function (main.py lines 33-41); the `os.makedirs`
side effect is not modelled. -/
def get_data_file_name (sensor : PyStr) (horizon : Int)
    (time_period : PyStr := ['h']) : PyStr :=
  pyPathJoin "../../data/fused".data
    (sensor ++ ['_'] ++ pyStrOfInt horizon ++ time_period ++ ".json".data)

/-- Python dict, modelled extensionally as a partial map; `d[k]` on a missing
key raises `KeyError`, modelled as `none`. -/
def PyDict (K V : Type) := K → Option V

/-- Python dict assignment `d[k] = v`. -/
def dset {K V : Type} [DecidableEq K] (d : PyDict K V) (k : K) (v : V) :
    PyDict K V :=
  fun q => if q = k then some v else d q

/-- The empty dict `{}` / `dict()`. -/
def dempty {K V : Type} : PyDict K V := fun _ => Option.none

/-- The nested `models` dict built in the init phase (main.py lines 146-151):
`models[sensor] = {}` then `models[sensor][horizon] = PredictiveModel(...)`.
The model constructed for a pair is abstracted as `factory sensor horizon`. -/
def initModels {M : Type} (sensors : List PyStr) (horizons : List Int)
    (factory : PyStr → Int → M) : PyDict PyStr (PyDict Int M) :=
  sensors.foldl
    (fun models sensor =>
      dset models sensor
        (horizons.foldl
          (fun inner horizon => dset inner horizon (factory sensor horizon))
          dempty))
    dempty

/-- The init phase including the possibility that the config declared no
`sensors` or no `prediction_horizons` key: after the scan loop (main.py lines
130-144) such a key leaves the corresponding variable at `None`, and the
iteration `for sensor in sensors` / `for horizon in horizons` then raises
`TypeError` (NoneType is not iterable), modelled as `Except.error ()`. Note
the inner iteration over `horizons` is only reached when `sensors` is
nonempty. -/
def initPhase {M : Type} (sensors : Option (List PyStr))
    (horizons : Option (List Int)) (factory : PyStr → Int → M) :
    Except Unit (PyDict PyStr (PyDict Int M)) :=
  match sensors with
  | Option.none => Except.error ()
  | some ss =>
    ss.foldlM
      (fun models sensor =>
        match horizons with
        | Option.none => Except.error ()
        | some hs =>
          Except.ok (dset models sensor
            (hs.foldl
              (fun inner horizon => dset inner horizon (factory sensor horizon))
              dempty)))
      dempty

/-- Registry lookup `models[sensor][horizon]` (main.py line 230); a missing
sensor or horizon key raises `KeyError`, modelled as `none`. The lookup never
inserts a default entry (`models` is a plain dict, not a defaultdict). -/
def registryGet {M : Type} (models : PyDict PyStr (PyDict Int M)) (s : PyStr)
    (h : Int) : Option M :=
  (models s).bind (fun inner => inner h)

/-- In-place replacement of the model state stored at `models[sensor][horizon]`
(the Python code mutates the `PredictiveModel` object through the reference
obtained from the dict; in the pure embedding this is an update of the state
held at that key). -/
def registrySet {M : Type} (models : PyDict PyStr (PyDict Int M)) (s : PyStr)
    (h : Int) (m : M) : PyDict PyStr (PyDict Int M) :=
  match models s with
  | some inner => dset models s (dset inner h m)
  | Option.none => dset models s (dset dempty h m)

/-- Python values produced by decoding a payload: integers, floats (modelled as
rationals), strings, lists, dicts, and `None`. -/
inductive Val where
  | int : Int → Val
  | num : ℚ → Val
  | str : PyStr → Val
  | vlist : List Val → Val
  | vdict : List (PyStr × Val) → Val
  | pyNone : Val

/-- First-match lookup in a dict literal (the dict literals arising here have
pairwise distinct keys, so first-match agrees with Python's last-wins). -/
def lookupFirst : List (PyStr × Val) → PyStr → Option Val
  | [], _ => Option.none
  | (k2, v) :: rest, k => if k2 = k then some v else lookupFirst rest k

/-- Python subscript `rec[key]` with a string key: `KeyError` on a missing key
and `TypeError` on a non-dict value are both modelled as `none`. -/
def dictGet (v : Val) (k : PyStr) : Option Val :=
  match v with
  | Val.vdict kvs => lookupFirst kvs k
  | _ => Option.none

/-- Python subscript `xs[i]` with a non-negative index: `IndexError` past the
end and `TypeError` on a non-list value are both modelled as `none`. -/
def listIndex (v : Val) (i : Nat) : Option Val :=
  match v with
  | Val.vlist xs => xs.get? i
  | _ => Option.none

/-- Parse shape of a payload string handed to `eval` (main.py line 218): a
structured literal, a call expression with literal arguments (evaluating it
executes the named callable — the return value of the call is not modelled
further, only the fact that code ran), or syntactically invalid text
(`SyntaxError`). -/
inductive PyExpr where
  | lit : Val → PyExpr
  | call : PyStr → List Val → PyExpr
  | malformed : PyStr → PyExpr

/-- Python `eval` applied to a payload: returns the resulting value (or `none`
on a syntax error) together with the list of callables the evaluation
executed. A strict structured-data parser such as `json.loads` would instead
reject every non-literal payload and never execute anything. -/
def pyEval : PyExpr → Option Val × List PyStr
  | PyExpr.lit v => (some v, [])
  | PyExpr.call f _ => (some Val.pyNone, [f])
  | PyExpr.malformed _ => (Option.none, [])

/-- Modelled from the spec: the `PredictiveModel` class is imported from
`lib/predictive_model.py`, which is not among the repository sources. Per the
spec (§4.1) it offers `predict(feature_vectors, timestamp)` (pure with respect
to accuracy state), a `predictability` attribute, and
`evaluate(output_record, measurement)` which returns the output record with
evaluation fields appended and updates the running predictability state. The
per-model mutable state has abstract type `σ`. -/
structure ModelImpl (σ : Type) where
  predict : σ → List Val → Val → List Val
  predictability : σ → Val
  evaluate : σ → Val → Val → Val × σ

/-- Context the prediction loop runs in: the model behaviour, the configured
`time_offset`, and the transport outcome `publishAck topic record timeout`
(whether `future.get(timeout=...)` succeeds for that publish). -/
structure LoopCtx (σ : Type) where
  impl : ModelImpl σ
  time_offset : PyStr
  publishAck : PyStr → Val → Nat → Bool

/-- An inbound Kafka message: its topic and its payload (`msg.value`). -/
structure Msg where
  topic : PyStr
  value : PyExpr

/-- Registry of per-model states, keyed like the `models` dict. -/
abbrev Registry (σ : Type) := PyDict PyStr (PyDict Int σ)

/-- The bounded timeout passed to `future.get(timeout=10)` (main.py line 250). -/
def ack_timeout : Nat := 10

/-- What the loop logs/emits for one record: a successful publish, a publish
whose acknowledgment failed (`print('Producer error: ...')`, main.py line 252),
or a per-record failure caught by the outer handler
(`print('Consumer error: ...')`, main.py line 255). -/
inductive Outcome where
  | published : PyStr → Val → Outcome
  | producerError : PyStr → Val → Outcome
  | consumerError : Outcome

/-- The body of the per-record `try` block (main.py lines 218-247) up to and
including the `evaluate` call and the choice of output topic; any exception on
the way is modelled as `none`. Returns the updated registry, the output topic,
and the evaluated output record. -/
def dispatchRecord {σ : Type} (ctx : LoopCtx σ) (reg : Registry σ) (msg : Msg) :
    Option (Registry σ × PyStr × Val) := do
  let record ← (pyEval msg.value).1
  let timestamp ← dictGet record "timestamp".data
  let ftr_vector ← dictGet record "ftr_vector".data
  let measurement ← listIndex ftr_vector 0
  let sh ← resolveTopic msg.topic ctx.time_offset
  let mstate ← registryGet reg sh.1 sh.2
  let p0 ← (ctx.impl.predict mstate [ftr_vector] timestamp).get? 0
  let output := Val.vdict [("stampm".data, timestamp),
                           ("value".data, p0),
                           ("sensor_id".data, Val.str sh.1),
                           ("horizon".data, Val.int sh.2),
                           ("predictability".data, ctx.impl.predictability mstate)]
  let ev := ctx.impl.evaluate mstate output measurement
  pure (registrySet reg sh.1 sh.2 ev.2, "predictions_".data ++ sh.1, ev.1)

/-- One iteration of the prediction loop (main.py lines 216-255): the record is
handled inside a `try`; on success the output is sent and the acknowledgment
awaited with `future.get(timeout=10)` inside an inner `try` whose failure is
logged as a producer error; any other exception is caught by the outer handler
and logged as a consumer error. Returns the updated registry, the outcome, and
the callables executed by the `eval`-based payload decoding. -/
def handleRecord {σ : Type} (ctx : LoopCtx σ) (reg : Registry σ) (msg : Msg) :
    Registry σ × Outcome × List PyStr :=
  match dispatchRecord ctx reg msg with
  | some (r, t, o) =>
    if ctx.publishAck t o ack_timeout then (r, Outcome.published t o, (pyEval msg.value).2)
    else (r, Outcome.producerError t o, (pyEval msg.value).2)
  | Option.none => (reg, Outcome.consumerError, (pyEval msg.value).2)

/-- The `for msg in consumer` loop (main.py line 216) over a finite sequence of
inbound messages. -/
def predictionLoop {σ : Type} (ctx : LoopCtx σ) (reg : Registry σ) :
    List Msg → Registry σ × List (Outcome × List PyStr)
  | [] => (reg, [])
  | m :: ms =>
    let step := handleRecord ctx reg m
    let rest := predictionLoop ctx step.1 ms
    (rest.1, (step.2.1, step.2.2) :: rest.2)

/-- Modelled from the spec: `PredictiveModel.load` lives in
`lib/predictive_model.py`, which is not among the repository sources; per the
spec (§4.1) it fails with `PersistenceError` when the path is missing or
corrupt. The snapshot store is abstracted as `fs`; `fs file = none` means the
load of that file raises. The surrounding loop structure is the loading phase
of `main` (lines 185-193), which wraps `model.load(filename)` in no
`try`/`except`, so an exception propagates and stops the phase; the result is
the list of files loaded in order, and whether the phase was aborted by an
uncaught error. -/
def loadLoop (fs : PyStr → Option Unit) : List (PyStr × Int) → List PyStr × Bool
  | [] => ([], false)
  | (s, h) :: rest =>
    match fs (get_model_file_name s h) with
    | Option.none => ([], true)
    | some _ =>
      let r := loadLoop fs rest
      (get_model_file_name s h :: r.1, r.2)

/-- The loading phase over the declared sensors and horizons in nested-loop
order, calling `get_model_file_name(sensor, horizon)` with no unit argument
exactly as main.py line 191 does. -/
def loadPhase (sensors : List PyStr) (horizons : List Int)
    (fs : PyStr → Option Unit) : List PyStr × Bool :=
  loadLoop fs
    (sensors.foldl (fun acc s => acc ++ horizons.map (fun h => (s, h))) [])

/-- The model files written by the saving phase (main.py lines 177-182):
`get_model_file_name(sensor, horizon)` is called with no unit argument. -/
def savePhaseFiles (sensors : List PyStr) (horizons : List Int) : List PyStr :=
  sensors.foldl
    (fun acc s => acc ++ horizons.map (fun h => get_model_file_name s h)) []

/-- The dataset files consumed by the learning phase (main.py lines 158-161):
`get_data_file_name(sensor, horizon)` is called with no unit argument. -/
def fitPhaseFiles (sensors : List PyStr) (horizons : List Int) : List PyStr :=
  sensors.foldl
    (fun acc s => acc ++ horizons.map (fun h => get_data_file_name s h)) []

/-- Values relevant to the watchdog guard: a dict, or a bound builtin method
object such as `conf.keys` (referenced without being called). -/
inductive WVal where
  | wdict : List (PyStr × WVal) → WVal
  | boundMethod : WVal

/-- Python membership test `needle in container`: on a dict it tests key
presence; on a bound builtin method object it raises
`TypeError: argument of type 'builtin_function_or_method' is not iterable`,
modelled as `Except.error ()`. -/
def pyIn (needle : PyStr) : WVal → Except Unit Bool
  | WVal.wdict kvs => Except.ok (kvs.any (fun kv => kv.1 = needle))
  | WVal.boundMethod => Except.error ()

/-- Attribute access `conf.keys` on a dict: the expression names the bound
builtin `keys` method without calling it, so it yields the method object, not
the key view. -/
def confKeysAttr (_conf : List (PyStr × WVal)) : WVal := WVal.boundMethod

/-- The watchdog guard condition `"watchdog_path" in conf.keys`
(main.py line 196). -/
def watchdogGuard (conf : List (PyStr × WVal)) : Except Unit Bool :=
  pyIn "watchdog_path".data (confKeysAttr conf)

/-- Concrete model behaviour used by the witnesses: every prediction is 21.5,
predictability is the constant 1, and `evaluate` appends nothing. -/
def testImpl : ModelImpl Unit :=
  ⟨fun _ _ _ => [Val.num 21.5], fun _ => Val.num 1, fun st o _ => (o, st)⟩

/-- Registry for the witnesses: exactly the declared pair ("temp", 24). -/
def testReg : Registry Unit := initModels ["temp".data] [24] (fun _ _ => ())

/-- Loop context for the witnesses: unit "h", every publish acknowledged. -/
def testCtx : LoopCtx Unit := ⟨testImpl, "h".data, fun _ _ _ => true⟩

/-- A well-formed inbound record on topic `features_temp_24h`. -/
def goodMsg : Msg :=
  ⟨"features_temp_24h".data,
   PyExpr.lit (Val.vdict [("timestamp".data, Val.int 1),
                          ("ftr_vector".data, Val.vlist [Val.num 20])])⟩

/-- A malformed inbound payload on the same topic. -/
def badMsg : Msg :=
  ⟨"features_temp_24h".data, PyExpr.malformed "not a record".data⟩

/-- The output record the loop builds and publishes for `goodMsg` under
`testCtx`. -/
def expectedOut : Val :=
  Val.vdict [("stampm".data, Val.int 1),
             ("value".data, Val.num 21.5),
             ("sensor_id".data, Val.str "temp".data),
             ("horizon".data, Val.int 24),
             ("predictability".data, Val.num 1)]

/-- Digit characters round-trip through `charToDigit` and are digits. -/
theorem digitChar_spec (d : Nat) (hd : d < 10) :
    charToDigit (Nat.digitChar d) = d ∧ (Nat.digitChar d).isDigit = true := by
  interval_cases d <;> exact ⟨by decide, by decide⟩

/-- A digit character is not a sign and not an underscore. -/
theorem isDigit_ne (c : Char) (hc : c.isDigit = true) :
    c ≠ '-' ∧ c ≠ '+' ∧ c ≠ '_' := by
  refine ⟨?_, ?_, ?_⟩ <;> · intro h; subst h; exact absurd hc (by decide)

/-- Appending one character to a digit string multiplies its value by 10 and
adds the digit. -/
theorem digitsVal_concat (cs : List Char) (c : Char) :
    digitsVal (cs ++ [c]) = 10 * digitsVal cs + charToDigit c := by
  simp [digitsVal, List.foldl_append]

/-- With enough fuel, the fuelled rendering produces only digit characters,
evaluates back to the number it renders, and is nonempty for nonzero input. -/
theorem natToDigitsAux_spec :
    ∀ (fuel n : Nat), n < fuel →
      (∀ c ∈ natToDigitsAux fuel n, c.isDigit = true)
      ∧ digitsVal (natToDigitsAux fuel n) = n
      ∧ (n ≠ 0 → natToDigitsAux fuel n ≠ []) := by
  intro fuel
  induction fuel with
  | zero => intro n hn; omega
  | succ f ih =>
    intro n hn
    by_cases h0 : n = 0
    · subst h0
      refine ⟨?_, ?_, ?_⟩ <;> simp [natToDigitsAux, digitsVal]
    · have hrec : n / 10 < f := by
        have h1 : n / 10 < n := Nat.div_lt_self (Nat.pos_of_ne_zero h0) (by omega)
        omega
      have ihr := ih (n / 10) hrec
      have hd := digitChar_spec (n % 10) (Nat.mod_lt n (by omega))
      refine ⟨?_, ?_, ?_⟩
      · intro c hc
        simp only [natToDigitsAux, if_neg h0, List.mem_append, List.mem_singleton] at hc
        rcases hc with hc | hc
        · exact ihr.1 c hc
        · subst hc; exact hd.2
      · simp only [natToDigitsAux, if_neg h0]
        rw [digitsVal_concat, ihr.2.1, hd.1]
        omega
      · intro _
        simp [natToDigitsAux, if_neg h0]

/-- Every character of `pyStrOfNat n` is a decimal digit. -/
theorem pyStrOfNat_isDigit (n : Nat) : ∀ c ∈ pyStrOfNat n, c.isDigit = true := by
  intro c hc
  by_cases h0 : n = 0
  · subst h0; simp [pyStrOfNat] at hc; subst hc; decide
  · simp only [pyStrOfNat, if_neg h0] at hc
    exact (natToDigitsAux_spec (n + 1) n (by omega)).1 c hc

/-- The rendering of a natural number is nonempty. -/
theorem pyStrOfNat_ne_nil (n : Nat) : pyStrOfNat n ≠ [] := by
  by_cases h0 : n = 0
  · subst h0; simp [pyStrOfNat]
  · simp only [pyStrOfNat, if_neg h0]
    exact (natToDigitsAux_spec (n + 1) n (by omega)).2.2 h0

/-- The digit value of the rendering of a natural number is the number. -/
theorem digitsVal_pyStrOfNat (n : Nat) : digitsVal (pyStrOfNat n) = n := by
  by_cases h0 : n = 0
  · subst h0; simp [pyStrOfNat, digitsVal, charToDigit]
  · simp only [pyStrOfNat, if_neg h0]
    exact (natToDigitsAux_spec (n + 1) n (by omega)).2.1

/-- Python `int` parses back the decimal rendering of a natural number. -/
theorem pyInt_pyStrOfNat (n : Nat) : pyInt (pyStrOfNat n) = some (n : Int) := by
  rcases hcs : pyStrOfNat n with _ | ⟨c, rest⟩
  · exact absurd hcs (pyStrOfNat_ne_nil n)
  · have hall : ∀ x ∈ c :: rest, x.isDigit = true := by
      rw [← hcs]; exact pyStrOfNat_isDigit n
    have hc := isDigit_ne c (hall c (by simp))
    have hval : digitsVal (c :: rest) = n := by rw [← hcs]; exact digitsVal_pyStrOfNat n
    simp only [pyInt, if_neg hc.1, if_neg hc.2.1]
    rw [if_pos, hval]
    exact List.all_eq_true.mpr hall

/-- Underscore does not occur in the rendering of a natural number. -/
theorem pyStrOfNat_no_underscore (n : Nat) : '_' ∉ pyStrOfNat n := by
  intro hmem
  exact (isDigit_ne '_' (pyStrOfNat_isDigit n '_' hmem)).2.2 rfl

/-- Splitting a string that does not contain the separator yields the string
as its single piece. -/
theorem splitOnChar_not_mem (sep : Char) :
    ∀ s : List Char, sep ∉ s → splitOnChar sep s = [s] := by
  intro s
  induction s with
  | nil => intro _; rfl
  | cons c rest ih =>
    intro h
    have hc : ¬c = sep := fun he => h (by simp [he])
    have hr : sep ∉ rest := fun hm => h (by simp [hm])
    simp [splitOnChar, hc, ih hr]

/-- Splitting at the first separator occurrence peels off the separator-free
prefix as the first piece. -/
theorem splitOnChar_append (sep : Char) :
    ∀ (a rest : List Char), sep ∉ a →
      splitOnChar sep (a ++ sep :: rest) = a :: splitOnChar sep rest := by
  intro a
  induction a with
  | nil => intro rest _; simp [splitOnChar]
  | cons c a2 ih =>
    intro rest h
    have hc : ¬c = sep := fun he => h (by simp [he])
    have ha : sep ∉ a2 := fun hm => h (by simp [hm])
    simp [splitOnChar, hc, ih rest ha]

/-- Splitting the formatted topic of a sensor without underscores, a horizon
and a unit without underscores yields exactly the three expected components. -/
theorem splitOnChar_format_topic (s u : PyStr) (h : Int)
    (hs : '_' ∉ s) (hu : '_' ∉ u) (hh : 0 ≤ h) :
    splitOnChar '_' (format_topic s h u)
      = ["features".data, s, pyStrOfNat h.toNat ++ u] := by
  have hd : pyStrOfInt h = pyStrOfNat h.toNat := by
    simp [pyStrOfInt, not_lt.mpr hh]
  have hfmt : format_topic s h u
      = "features".data ++ '_' :: (s ++ '_' :: (pyStrOfNat h.toNat ++ u)) := by
    simp [format_topic, hd]
  have hnd : '_' ∉ pyStrOfNat h.toNat ++ u := by
    intro hm
    rcases List.mem_append.mp hm with hm | hm
    · exact pyStrOfNat_no_underscore h.toNat hm
    · exact hu hm
  rw [hfmt, splitOnChar_append '_' "features".data _ (by decide),
      splitOnChar_append '_' s _ hs, splitOnChar_not_mem '_' _ hnd]

/-- C2 counterexample: with a sensor identifier containing an underscore the
resolver returns only the last underscore-separated component of the sensor,
so key resolution is not a left inverse of topic formatting for every sensor:
`resolve(format("a_b", 1, "h"), "h") = ("b", 1) ≠ ("a_b", 1)`. -/
theorem resolve_format_counterexample :
    resolveTopic (format_topic "a_b".data 1 "h".data) "h".data
        = some ("b".data, 1)
    ∧ resolveTopic (format_topic "a_b".data 1 "h".data) "h".data
        ≠ some ("a_b".data, 1) := by
  constructor
  · decide
  · decide

/-- C2 (corrected): for every sensor `s` without underscores, every
non-negative horizon `h`, and every nonempty unit code `u` without
underscores, resolving the topic produced by the formatter with unit `u`
yields exactly `(s, h)`; the underscore and nonemptiness restrictions are
forced by `resolve_format_counterexample` and by the slice `[:-len(u)]`,
which empties the horizon component when `u` is empty. -/
theorem resolve_format_roundtrip (s u : PyStr) (h : Int)
    (hs : '_' ∉ s) (hu : '_' ∉ u) (hune : u ≠ []) (hh : 0 < h) :
    resolveTopic (format_topic s h u) u = some (s, h) := by
  have hsplit := splitOnChar_format_topic s u h hs hu (le_of_lt hh)
  have hslice : pySliceDropLast (pyStrOfNat h.toNat ++ u) u.length
      = pyStrOfNat h.toNat := by
    have hk : u.length ≠ 0 := fun he => hune (List.length_eq_zero.mp he)
    have hlen : (pyStrOfNat h.toNat ++ u).length - u.length
        = (pyStrOfNat h.toNat).length := by
      simp
    simp only [pySliceDropLast, if_neg hk, hlen]
    exact List.take_left _ _
  have hint : pyInt (pyStrOfNat h.toNat) = some h := by
    rw [pyInt_pyStrOfNat]
    congr 1
    exact Int.toNat_of_nonneg (le_of_lt hh)
  simp [resolveTopic, hsplit, hslice, hint]

/-- C2 witness at a concrete input. -/
theorem resolve_format_roundtrip_witness :
    resolveTopic (format_topic "temp".data 24 "h".data) "h".data
      = some ("temp".data, 24) :=
  resolve_format_roundtrip "temp".data "h".data 24 (by decide) (by decide)
    (by decide) (by decide)

/-- Folding key-wise insertions over a list gives a map that holds `f k` at
every key of the list and is untouched elsewhere. -/
theorem foldl_dset_apply {K V : Type} [DecidableEq K] (f : K → V) :
    ∀ (l : List K) (init : PyDict K V) (k : K),
      (l.foldl (fun d x => dset d x (f x)) init) k
        = if k ∈ l then some (f k) else init k := by
  intro l
  induction l with
  | nil => intro init k; simp
  | cons x xs ih =>
    intro init k
    rw [List.foldl_cons, ih]
    by_cases hk : k ∈ xs
    · simp [hk]
    · by_cases hx : k = x
      · subst hx; simp [hk, dset]
      · simp [hk, hx, dset]

/-- Pointwise description of the registry built by the init loops. -/
theorem initModels_apply {M : Type} (sensors : List PyStr) (horizons : List Int)
    (factory : PyStr → Int → M) (s : PyStr) :
    initModels sensors horizons factory s
      = if s ∈ sensors
        then some (horizons.foldl
          (fun inner horizon => dset inner horizon (factory s horizon)) dempty)
        else Option.none := by
  have h := foldl_dset_apply
    (fun sensor => horizons.foldl
      (fun inner horizon => dset inner horizon (factory sensor horizon)) dempty)
    sensors dempty s
  simpa [initModels, dempty] using h

/-- C3: after initialization from declared sensors `S` and horizons `H`, the
registry maps every pair in `S × H` to exactly the one model the factory
constructed for it, and the lookup `models[sensor][horizon]` on any pair
outside `S × H` fails (KeyError, the code's realisation of the spec's
`UnknownKeyError`) instead of producing a default entry. -/
theorem registry_init_get {M : Type} (sensors : List PyStr) (horizons : List Int)
    (factory : PyStr → Int → M) (s : PyStr) (h : Int) :
    (s ∈ sensors → h ∈ horizons →
      registryGet (initModels sensors horizons factory) s h = some (factory s h))
    ∧ (s ∉ sensors ∨ h ∉ horizons →
      registryGet (initModels sensors horizons factory) s h = Option.none) := by
  constructor
  · intro hs hh
    rw [registryGet, initModels_apply, if_pos hs]
    simp only [Option.some_bind]
    rw [foldl_dset_apply (fun horizon => factory s horizon) horizons dempty h,
        if_pos hh]
  · intro hor
    rcases hor with hs | hh
    · rw [registryGet, initModels_apply, if_neg hs]; rfl
    · by_cases hs : s ∈ sensors
      · rw [registryGet, initModels_apply, if_pos hs]
        simp only [Option.some_bind]
        rw [foldl_dset_apply (fun horizon => factory s horizon) horizons dempty h,
            if_neg hh]
        rfl
      · rw [registryGet, initModels_apply, if_neg hs]; rfl

/-- C3 witness: a registry declared with sensor "temp" and horizon 24 holds
the factory's model at ("temp", 24) and fails on the undeclared ("temp", 48). -/
theorem registry_init_get_witness :
    registryGet (initModels ["temp".data] [24] (fun s h => (s, h)))
        "temp".data 24 = some ("temp".data, 24)
    ∧ registryGet (initModels ["temp".data] [24] (fun s h => (s, h)))
        "temp".data 48 = Option.none :=
  ⟨(registry_init_get ["temp".data] [24] (fun s h => (s, h)) "temp".data 24).1
      (by decide) (by decide),
   (registry_init_get ["temp".data] [24] (fun s h => (s, h)) "temp".data 48).2
      (Or.inr (by decide))⟩

/-- An effect-free `foldlM` over `Except` is the pure `foldl`. -/
theorem foldlM_except_ok {α β : Type} (g : α → β → α) :
    ∀ (l : List β) (init : α),
      List.foldlM (fun a b => (Except.ok (g a b) : Except Unit α)) init l
        = Except.ok (List.foldl g init l) := by
  intro l
  induction l with
  | nil => intro init; rfl
  | cons b bs ih => intro init; rw [List.foldlM_cons, List.foldl_cons, ← ih]; rfl

/-- The init phase with both config keys present never raises and builds
exactly the `initModels` registry. -/
theorem initPhase_some_some {M : Type} (ss : List PyStr) (hs : List Int)
    (factory : PyStr → Int → M) :
    initPhase (some ss) (some hs) factory
      = Except.ok (initModels ss hs factory) := by
  simpa [initPhase, initModels] using
    foldlM_except_ok
      (fun models sensor =>
        dset models sensor
          (hs.foldl
            (fun inner horizon => dset inner horizon (factory sensor horizon))
            dempty))
      ss dempty

/-- C6 counterexample: with `sensors` declared as the empty list (and a
nonempty horizon list) the init phase raises nothing and completes with an
entirely empty registry, contradicting the claim that initialization fails
fast whenever the sensors entry is empty and never silently proceeds with an
empty registry. -/
theorem init_empty_sensors_counterexample :
    initPhase (some ([] : List PyStr)) (some [(24 : Int)]) (fun s h => (s, h))
        = Except.ok dempty
    ∧ registryGet (dempty : PyDict PyStr (PyDict Int (PyStr × Int)))
        "temp".data 24 = Option.none := ⟨rfl, rfl⟩

/-- C6 (corrected): initialization constructs exactly one model per declared
pair (the `initModels` registry of `registry_init_get`); a missing `sensors`
entry, or a missing `prediction_horizons` entry together with a nonempty
sensor list, makes the phase fail fast with an uncaught `TypeError` (the
code's realisation of a fatal config error — there is no `ConfigError` class);
but an empty `sensors` or `prediction_horizons` list is accepted silently, so
the phase then proceeds with an empty registry. -/
theorem init_fail_fast {M : Type} (sensors : List PyStr)
    (horizons : Option (List Int)) (hzs : List Int)
    (factory : PyStr → Int → M) :
    initPhase Option.none horizons factory = Except.error ()
    ∧ (sensors ≠ [] →
        initPhase (some sensors) Option.none factory = Except.error ())
    ∧ initPhase (some sensors) (some hzs) factory
        = Except.ok (initModels sensors hzs factory) := by
  refine ⟨rfl, ?_, initPhase_some_some sensors hzs factory⟩
  intro hne
  rcases sensors with _ | ⟨x, xs⟩
  · exact absurd rfl hne
  · rfl

/-- C6 witness at a concrete input: a missing horizons entry with one declared
sensor fails fast. -/
theorem init_fail_fast_witness :
    initPhase (some ["temp".data]) Option.none (fun s h => (s, h))
      = Except.error () :=
  (init_fail_fast ["temp".data] Option.none [] (fun s h => (s, h))).2.1
    (by decide)

/-- C7 counterexample: two models are declared, for ("temp", 1) and
("temp", 2); the snapshot store holds only the second one's file. The load of
the first raises, and since the loading phase wraps `model.load` in no
`try`/`except`, the phase aborts having loaded nothing at all — the second
model, whose snapshot is present, is never loaded. This contradicts the claim
that one model's load failure does not by itself abort loading the remaining
models. -/
theorem load_abort_counterexample :
    loadPhase ["temp".data] [1, 2]
        (fun f => if f = get_model_file_name "temp".data 2 then some ()
                  else Option.none)
      = ([], true) := by decide

/-- C7 (corrected): a load from a missing or corrupt path fails with an error
(the spec-modelled `PersistenceError`), and because the loading phase does not
catch it, the failure of any one model's load aborts the phase on the spot:
no model from that point on is loaded, however many snapshots remain
available. -/
theorem load_failure_aborts (fs : PyStr → Option Unit) (s : PyStr) (h : Int)
    (rest : List (PyStr × Int))
    (hmiss : fs (get_model_file_name s h) = Option.none) :
    loadLoop fs ((s, h) :: rest) = ([], true) := by
  simp [loadLoop, hmiss]

/-- C7 witness at a concrete input. -/
theorem load_failure_aborts_witness :
    loadLoop (fun _ => Option.none) [("temp".data, 24)] = ([], true) :=
  load_failure_aborts (fun _ => Option.none) "temp".data 24 [] rfl

/-- C9 counterexample: the saving phase for sensor "temp" and horizon 24 uses
the file `models/model_temp_24h` — the helper's default unit "h" — which is
not the name `models/model_temp_24m` the claim requires when the configured
`time_offset` unit is "m"; the phase's calls pass no unit at all. -/
theorem file_name_unit_counterexample :
    savePhaseFiles ["temp".data] [24] = ["models/model_temp_24h".data]
    ∧ "models/model_temp_24h".data ≠ "models/model_temp_24m".data
    ∧ fitPhaseFiles ["temp".data] [24] = ["../../data/fused/temp_24h.json".data] := by
  refine ⟨by decide, by decide, by decide⟩

/-- C9 (corrected): the save and load phases use model files named
`model_<sensor>_<horizon>h` and the fit phase uses dataset files named
`<sensor>_<horizon>h.json`, where the unit suffix is the literal default "h"
of the filename helpers — the phases call the helpers without passing the
configured `time_offset`, so the configured unit never reaches the file
names (the model file always ends in the character "h"). -/
theorem phase_files_default_unit (s : PyStr) (h : Int) :
    savePhaseFiles [s] [h]
        = [pyPathJoin "models".data
            ("model_".data ++ s ++ ['_'] ++ pyStrOfInt h ++ ['h'])]
    ∧ fitPhaseFiles [s] [h]
        = [pyPathJoin "../../data/fused".data
            (s ++ ['_'] ++ pyStrOfInt h ++ ['h'] ++ ".json".data)]
    ∧ (get_model_file_name s h).getLast? = some 'h'
    ∧ loadPhase [s] [h] (fun _ => some ())
        = ([pyPathJoin "models".data
            ("model_".data ++ s ++ ['_'] ++ pyStrOfInt h ++ ['h'])], false) := by
  refine ⟨rfl, rfl, ?_, rfl⟩
  show (pyPathJoin "models".data
    ("model_".data ++ s ++ ['_'] ++ pyStrOfInt h ++ ['h'])).getLast? = some 'h'
  rw [pyPathJoin, List.getLast?_append_cons]
  have hassoc : '/' :: ("model_".data ++ s ++ ['_'] ++ pyStrOfInt h ++ ['h'])
      = ('/' :: ("model_".data ++ s ++ ['_'] ++ pyStrOfInt h)) ++ ['h'] := by
    simp
  rw [hassoc, List.getLast?_append_cons]
  rfl

/-- A record whose handling fails is reported as a consumer error with the
registry untouched — the failing iteration has no effect beyond its log line. -/
theorem handleRecord_consumerError {σ : Type} (ctx : LoopCtx σ)
    (reg : Registry σ) (m : Msg)
    (hfail : (handleRecord ctx reg m).2.1 = Outcome.consumerError) :
    handleRecord ctx reg m = (reg, Outcome.consumerError, (pyEval m.value).2) := by
  rcases hd : dispatchRecord ctx reg m with _ | ⟨r, t, o⟩
  · simp [handleRecord, hd]
  · rw [handleRecord, hd] at hfail
    rcases hb : ctx.publishAck t o ack_timeout <;> simp [hb] at hfail

/-- The loop emits exactly one outcome per inbound record, whatever each
record's fate. -/
theorem predictionLoop_length {σ : Type} (ctx : LoopCtx σ) :
    ∀ (msgs : List Msg) (reg : Registry σ),
      (predictionLoop ctx reg msgs).2.length = msgs.length := by
  intro msgs
  induction msgs with
  | nil => intro reg; rfl
  | cons m ms ih => intro reg; simp [predictionLoop, ih]

/-- C4: a record whose handling fails anywhere inside the per-record `try`
(payload decoding, key resolution, registry lookup, ...) contributes exactly
one logged consumer error, leaves the registry untouched, and the loop
processes the remaining records exactly as it would have without the bad
record; the loop emits one outcome per record and never halts. -/
theorem loop_fault_isolation {σ : Type} (ctx : LoopCtx σ) (reg : Registry σ)
    (m : Msg) (ms : List Msg)
    (hfail : (handleRecord ctx reg m).2.1 = Outcome.consumerError) :
    (predictionLoop ctx reg (m :: ms)).2
        = (Outcome.consumerError, (pyEval m.value).2)
            :: (predictionLoop ctx reg ms).2
    ∧ (predictionLoop ctx reg (m :: ms)).1 = (predictionLoop ctx reg ms).1
    ∧ (predictionLoop ctx reg (m :: ms)).2.length = ms.length + 1 := by
  have hstep := handleRecord_consumerError ctx reg m hfail
  refine ⟨?_, ?_, ?_⟩
  · simp [predictionLoop, hstep]
  · simp [predictionLoop, hstep]
  · rw [predictionLoop_length]
    rfl

/-- C4 witness: a malformed payload followed by a well-formed record yields
one logged consumer error and one published prediction — ingestion is not
halted. -/
theorem loop_fault_isolation_witness :
    (predictionLoop testCtx testReg [badMsg, goodMsg]).2
      = [(Outcome.consumerError, []),
         (Outcome.published "predictions_temp".data expectedOut, [])] := by
  have h := loop_fault_isolation testCtx testReg badMsg [goodMsg] rfl
  rw [h.1]
  rfl

/-- C5: an inbound record with timestamp `T` and feature vector
`[20.0, ...]` arriving on topic `features_temp_24h`, with a model registered
for ("temp", 24) whose prediction for that feature vector is 21.5 and whose
`evaluate` appends fields to the output record, is published (under an
acknowledging transport) to topic `predictions_temp` as a record holding
value 21.5, sensor_id "temp", horizon 24, the timestamp (field `stampm`),
and a predictability field. -/
theorem end_to_end_prediction {σ : Type} (impl : ModelImpl σ)
    (pub : PyStr → Val → Nat → Bool) (reg : Registry σ) (mstate : σ)
    (T : Val) (fvrest : List Val)
    (hreg : registryGet reg "temp".data 24 = some mstate)
    (hpred : impl.predict mstate [Val.vlist (Val.num 20 :: fvrest)] T
        = [Val.num 21.5])
    (hkeep : ∀ st o m k v, dictGet o k = some v →
        dictGet (impl.evaluate st o m).1 k = some v)
    (hack : ∀ t o n, pub t o n = true) :
    ∃ out,
      (handleRecord ⟨impl, "h".data, pub⟩ reg
          ⟨"features_temp_24h".data,
           PyExpr.lit (Val.vdict
             [("timestamp".data, T),
              ("ftr_vector".data, Val.vlist (Val.num 20 :: fvrest))])⟩).2.1
        = Outcome.published "predictions_temp".data out
      ∧ dictGet out "value".data = some (Val.num 21.5)
      ∧ dictGet out "sensor_id".data = some (Val.str "temp".data)
      ∧ dictGet out "horizon".data = some (Val.int 24)
      ∧ dictGet out "stampm".data = some T
      ∧ (dictGet out "predictability".data).isSome = true := by
  have h1 : dispatchRecord ⟨impl, "h".data, pub⟩ reg
      ⟨"features_temp_24h".data,
       PyExpr.lit (Val.vdict
         [("timestamp".data, T),
          ("ftr_vector".data, Val.vlist (Val.num 20 :: fvrest))])⟩
      = (registryGet reg "temp".data 24).bind (fun st =>
          ((impl.predict st [Val.vlist (Val.num 20 :: fvrest)] T).get? 0).bind
            (fun p0 =>
              some (registrySet reg "temp".data 24
                      (impl.evaluate st
                        (Val.vdict [("stampm".data, T),
                                    ("value".data, p0),
                                    ("sensor_id".data, Val.str "temp".data),
                                    ("horizon".data, Val.int 24),
                                    ("predictability".data, impl.predictability st)])
                        (Val.num 20)).2,
                    "predictions_".data ++ "temp".data,
                    (impl.evaluate st
                      (Val.vdict [("stampm".data, T),
                                  ("value".data, p0),
                                  ("sensor_id".data, Val.str "temp".data),
                                  ("horizon".data, Val.int 24),
                                  ("predictability".data, impl.predictability st)])
                      (Val.num 20)).1))) := rfl
  have hd : dispatchRecord ⟨impl, "h".data, pub⟩ reg
      ⟨"features_temp_24h".data,
       PyExpr.lit (Val.vdict
         [("timestamp".data, T),
          ("ftr_vector".data, Val.vlist (Val.num 20 :: fvrest))])⟩
      = some (registrySet reg "temp".data 24
                (impl.evaluate mstate
                  (Val.vdict [("stampm".data, T),
                              ("value".data, Val.num 21.5),
                              ("sensor_id".data, Val.str "temp".data),
                              ("horizon".data, Val.int 24),
                              ("predictability".data, impl.predictability mstate)])
                  (Val.num 20)).2,
              "predictions_".data ++ "temp".data,
              (impl.evaluate mstate
                (Val.vdict [("stampm".data, T),
                            ("value".data, Val.num 21.5),
                            ("sensor_id".data, Val.str "temp".data),
                            ("horizon".data, Val.int 24),
                            ("predictability".data, impl.predictability mstate)])
                (Val.num 20)).1) := by
    rw [h1, hreg]
    simp only [Option.some_bind]
    rw [hpred]
    rfl
  refine ⟨(impl.evaluate mstate
            (Val.vdict [("stampm".data, T),
                        ("value".data, Val.num 21.5),
                        ("sensor_id".data, Val.str "temp".data),
                        ("horizon".data, Val.int 24),
                        ("predictability".data, impl.predictability mstate)])
            (Val.num 20)).1, ?_, ?_, ?_, ?_, ?_, ?_⟩
  · simp only [handleRecord, hd, hack, if_true]
    rfl
  · exact hkeep _ _ _ _ _ rfl
  · exact hkeep _ _ _ _ _ rfl
  · exact hkeep _ _ _ _ _ rfl
  · exact hkeep _ _ _ _ _ rfl
  · have hp := hkeep mstate
      (Val.vdict [("stampm".data, T),
                  ("value".data, Val.num 21.5),
                  ("sensor_id".data, Val.str "temp".data),
                  ("horizon".data, Val.int 24),
                  ("predictability".data, impl.predictability mstate)])
      (Val.num 20) "predictability".data (impl.predictability mstate) rfl
    rw [hp]
    rfl

/-- C5 witness at a concrete input. -/
theorem end_to_end_prediction_witness :
    ∃ out,
      (handleRecord ⟨testImpl, "h".data, fun _ _ _ => true⟩ testReg
          ⟨"features_temp_24h".data,
           PyExpr.lit (Val.vdict
             [("timestamp".data, Val.int 1),
              ("ftr_vector".data, Val.vlist (Val.num 20 :: []))])⟩).2.1
        = Outcome.published "predictions_temp".data out
      ∧ dictGet out "value".data = some (Val.num 21.5)
      ∧ dictGet out "sensor_id".data = some (Val.str "temp".data)
      ∧ dictGet out "horizon".data = some (Val.int 24)
      ∧ dictGet out "stampm".data = some (Val.int 1)
      ∧ (dictGet out "predictability".data).isSome = true :=
  end_to_end_prediction testImpl (fun _ _ _ => true) testReg () (Val.int 1) []
    rfl rfl (fun _ _ _ _ _ hv => hv) (fun _ _ _ => rfl)

/-- C8: the publish acknowledgment is awaited with the bounded timeout 10; the
registry (and so every model's predictability state) after a record is the
same function of the record whether the acknowledgment succeeds or fails —
the evaluate-step mutation is never rolled back; a failed acknowledgment is
reported as a non-fatal producer error with the evaluated output intact; and
the loop goes on to emit one outcome per remaining record. -/
theorem publish_failure_semantics {σ : Type} (impl : ModelImpl σ) (toff : PyStr)
    (p1 p2 : PyStr → Val → Nat → Bool) (reg : Registry σ) (msg : Msg)
    (ms : List Msg) (r : Registry σ) (t : PyStr) (o : Val) :
    ack_timeout = 10
    ∧ (handleRecord ⟨impl, toff, p1⟩ reg msg).1
        = (handleRecord ⟨impl, toff, p2⟩ reg msg).1
    ∧ (dispatchRecord ⟨impl, toff, p1⟩ reg msg = some (r, t, o) →
        p1 t o ack_timeout = false →
        handleRecord ⟨impl, toff, p1⟩ reg msg
          = (r, Outcome.producerError t o, (pyEval msg.value).2))
    ∧ (predictionLoop ⟨impl, toff, p1⟩ reg (msg :: ms)).2.length = ms.length + 1 := by
  refine ⟨rfl, ?_, ?_, ?_⟩
  · have hdd : dispatchRecord ⟨impl, toff, p1⟩ reg msg
        = dispatchRecord ⟨impl, toff, p2⟩ reg msg := rfl
    rcases hd : dispatchRecord ⟨impl, toff, p2⟩ reg msg with _ | ⟨r2, t2, o2⟩
    · simp [handleRecord, hdd, hd]
    · simp only [handleRecord, hdd, hd]
      split <;> split <;> rfl
  · intro hdisp hackf
    simp [handleRecord, hdisp, hackf]
  · rw [predictionLoop_length]
    rfl

/-- C8 witness: under a transport that never acknowledges, the well-formed
record still updates the registry at ("temp", 24) via `evaluate` and is
reported as a producer error carrying the evaluated output. -/
theorem publish_failure_semantics_witness :
    handleRecord ⟨testImpl, "h".data, fun _ _ _ => false⟩ testReg goodMsg
      = (registrySet testReg "temp".data 24 (),
         Outcome.producerError "predictions_temp".data expectedOut, []) :=
  (publish_failure_semantics testImpl "h".data (fun _ _ _ => false)
      (fun _ _ _ => true) testReg goodMsg []
      (registrySet testReg "temp".data 24 ())
      "predictions_temp".data expectedOut).2.2.1 rfl rfl

/-- C1: the prediction loop decodes payloads with Python `eval` (main.py line
218), which is not a strict structured-data parser: on an inbound message of
the prediction loop whose payload text is the call expression
`__import__('os')`, the decode step executes the payload as live code (the
executed-callables trace of the record's handling is nonempty), refuting the
claim that payload decoding only ever produces data values. -/
theorem decode_executes_payload_code :
    (handleRecord testCtx testReg
        ⟨"features_temp_24h".data,
         PyExpr.call "__import__".data [Val.str "os".data]⟩).2.2
      = ["__import__".data]
    ∧ ["__import__".data] ≠ ([] : List PyStr) := ⟨rfl, by decide⟩

/-- C10: the guard `"watchdog_path" in conf.keys` (main.py line 196) applies
the membership test to the bound `keys` method object rather than to its
result, so for every loaded configuration it raises `TypeError` instead of
returning a key-presence boolean: neither the branch starting the watchdog
nor the branch reporting a missing path executes normally — unlike the
membership test applied to the dict itself, which does test key presence. -/
theorem watchdog_guard_never_tests_key (conf : List (PyStr × WVal)) :
    watchdogGuard conf = Except.error ()
    ∧ watchdogGuard conf ≠ Except.ok true
    ∧ watchdogGuard conf ≠ Except.ok false
    ∧ pyIn "watchdog_path".data (WVal.wdict conf)
        = Except.ok (conf.any (fun kv => kv.1 = "watchdog_path".data)) := by
  refine ⟨rfl, ?_, ?_, rfl⟩ <;> · intro h; exact Except.noConfusion h

end Forecasting
